import Mathlib

/-!
Shallow embedding of the Minervini stock screener (src/main.py).

Modelling conventions:
* A dataframe column of floats is a function from row index to `Option ℚ`;
  `none` plays the role of pandas NaN (undefined / window-not-yet-full).
  Any comparison against NaN is false, exactly as in numpy.
* The close-price column is a `List ℚ` (real market closes are never NaN
  in this pipeline, and every derived column reads only `Close`).
* Python exceptions are `Except`: the code has no try/except, so exceptions
  propagate through `load_ticker_data` and the `run` loop via `Except` bind.
* `yf.download` is an oracle parameter `fetch : String → Except String PriceSeries`.
-/

namespace Minervini

/-- A raw OHLCV price series: the table returned by the data source.
One row per trading day; all columns listed per-row. -/
structure PriceSeries where
  dates : List ℚ
  openCol : List ℚ
  highCol : List ℚ
  lowCol : List ℚ
  close : List ℚ
  volume : List ℚ
deriving DecidableEq

/-- The trailing window of width `w` ending at row `i`: rows
`max 0 (i+1-w) … i` of `xs`, i.e. past and current rows only. -/
def windowSlice (w i : ℕ) (xs : List ℚ) : List ℚ :=
  (xs.take (i + 1)).drop (i + 1 - w)

/-- Pandas `df['Close'].rolling(window=w).mean()` at row `i`: the arithmetic mean
of the trailing `w` closes, `none` (NaN) until `w` rows exist. -/
def rollingMean (w : ℕ) (xs : List ℚ) (i : ℕ) : Option ℚ :=
  if w ≤ i + 1 ∧ i < xs.length then some ((windowSlice w i xs).sum / (w : ℚ)) else none

/-- Maximum of a list of rationals, `none` on the empty list. -/
def listMax : List ℚ → Option ℚ
  | [] => none
  | x :: xs => some (xs.foldl max x)

/-- Minimum of a list of rationals, `none` on the empty list. -/
def listMin : List ℚ → Option ℚ
  | [] => none
  | x :: xs => some (xs.foldl min x)

/-- Pandas `df['Close'].rolling(window=w).max()` at row `i`. -/
def rollingMax (w : ℕ) (xs : List ℚ) (i : ℕ) : Option ℚ :=
  if w ≤ i + 1 ∧ i < xs.length then listMax (windowSlice w i xs) else none

/-- Pandas `df['Close'].rolling(window=w).min()` at row `i`. -/
def rollingMin (w : ℕ) (xs : List ℚ) (i : ℕ) : Option ℚ :=
  if w ≤ i + 1 ∧ i < xs.length then listMin (windowSlice w i xs) else none

/-- Numpy comparison `a > b` on possibly-NaN scalars: false whenever either
side is NaN. -/
def optGt : Option ℚ → Option ℚ → Bool
  | some a, some b => decide (b < a)
  | _, _ => false

/-- Numpy comparison `a < b` on possibly-NaN scalars. -/
def optLt : Option ℚ → Option ℚ → Bool
  | some a, some b => decide (a < b)
  | _, _ => false

/-- The `200MA_TREND` loop of `_process_ticker`, as a function of the
(200-day-MA) column `ms`.  Row 0 has no prior value (`prev_200ma is None`),
so the counter is 0 there; row `i+1` increments the row-`i` counter when
`ms (i+1) > ms i` in NaN semantics, and resets to 0 otherwise.  This is the
exact per-row recurrence of the `df.iterrows()` loop at src/main.py lines
62-75: `cnt += 1` iff `prev_200ma is not None and curr_200ma > prev_200ma`. -/
def trendAt (ms : ℕ → Option ℚ) : ℕ → ℕ
  | 0 => 0
  | i + 1 => if optGt (ms (i + 1)) (ms i) then trendAt ms i + 1 else 0

/-- The annotated series: the base table plus every derived column added by
`_process_ticker`.  Float columns are `ℕ → Option ℚ` (NaN-capable), the
trend counter is an integer column (`ℕ → ℕ`, never NaN: it is initialized
to 0 and assigned on every row), boolean columns are `ℕ → Bool` (pandas
comparisons yield False on NaN, never NaN). -/
structure AnnotatedSeries where
  base : PriceSeries
  ma50 : ℕ → Option ℚ
  ma150 : ℕ → Option ℚ
  ma200 : ℕ → Option ℚ
  trend200 : ℕ → ℕ
  trend1M : ℕ → Bool
  trend3M : ℕ → Bool
  trend6M : ℕ → Bool
  ma50Above : ℕ → Bool
  ma150Above200 : ℕ → Bool
  wk52T : ℕ → Bool

/-- The function `_process_ticker` (src/main.py lines 46-93): appends the moving
averages, the 200-day-MA trend counter and trend flags, the MA ordering
booleans, and the 52-week trend flag.  Every derived column reads only the
`Close` column.  Note the literal duplication in `50MA>>` (both conjuncts
compare against the 150-day MA) and the literal `52*7 = 364`-row window and
or-ed 25% clause of `52WK_TREND`. -/
def process_ticker (s : PriceSeries) : AnnotatedSeries where
  base := s
  ma50 := rollingMean 50 s.close
  ma150 := rollingMean 150 s.close
  ma200 := rollingMean 200 s.close
  trend200 := trendAt (rollingMean 200 s.close)
  trend1M := fun i => decide (30 ≤ trendAt (rollingMean 200 s.close) i)
  trend3M := fun i => decide (90 ≤ trendAt (rollingMean 200 s.close) i)
  trend6M := fun i => decide (180 ≤ trendAt (rollingMean 200 s.close) i)
  ma50Above := fun i =>
    optGt (rollingMean 50 s.close i) (rollingMean 150 s.close i) &&
    optGt (rollingMean 50 s.close i) (rollingMean 150 s.close i)
  ma150Above200 := fun i =>
    optGt (rollingMean 150 s.close i) (rollingMean 200 s.close i)
  wk52T := fun i =>
    (optLt (s.close.get? i) ((rollingMax (52 * 7) s.close i).map (· * (5 / 4 : ℚ))) ||
     optGt (s.close.get? i) ((rollingMax (52 * 7) s.close i).map (· * (3 / 4 : ℚ)))) &&
    optGt (s.close.get? i) ((rollingMin (52 * 7) s.close i).map (· * (13 / 10 : ℚ)))

/-- A scalar cell of the dataframe, as read back by `df.iloc[-1][col]`:
a float, a boolean, or NaN. -/
inductive Cell where
  | qval : ℚ → Cell
  | bval : Bool → Cell
  | nan : Cell
deriving DecidableEq

/-- Wrap a possibly-NaN float as a cell. -/
def optToCell : Option ℚ → Cell
  | some q => Cell.qval q
  | none => Cell.nan

/-- Python/numpy equality test `cell == False`: `False == False` is true,
`0 == False` and `0.0 == False` are true (booleans are numeric), and
`nan == False` is FALSE (NaN compares unequal to everything). -/
def cellEqFalse : Cell → Bool
  | Cell.bval b => !b
  | Cell.qval q => decide (q = 0)
  | Cell.nan => false

/-- Column lookup `df[name]` at row `i` of the annotated table. -/
def colCell (a : AnnotatedSeries) (i : ℕ) : String → Cell
  | "Date" => optToCell (a.base.dates.get? i)
  | "Open" => optToCell (a.base.openCol.get? i)
  | "High" => optToCell (a.base.highCol.get? i)
  | "Low" => optToCell (a.base.lowCol.get? i)
  | "Close" => optToCell (a.base.close.get? i)
  | "Volume" => optToCell (a.base.volume.get? i)
  | "50MA" => optToCell (a.ma50 i)
  | "150MA" => optToCell (a.ma150 i)
  | "200MA" => optToCell (a.ma200 i)
  | "200MA_TREND" => Cell.qval (a.trend200 i)
  | "200MA_TREND_1M" => Cell.bval (a.trend1M i)
  | "200MA_TREND_3M" => Cell.bval (a.trend3M i)
  | "200MA_TREND_6M" => Cell.bval (a.trend6M i)
  | "50MA>>" => Cell.bval (a.ma50Above i)
  | "150MA>200MA" => Cell.bval (a.ma150Above200 i)
  | "52WK_TREND" => Cell.bval (a.wk52T i)
  | _ => Cell.nan

/-- The column names of the annotated table. -/
def columnNames : List String :=
  ["Date", "Open", "High", "Low", "Close", "Volume", "50MA", "150MA", "200MA",
   "200MA_TREND", "200MA_TREND_1M", "200MA_TREND_3M", "200MA_TREND_6M",
   "50MA>>", "150MA>200MA", "52WK_TREND"]

/-- The number of rows of the table (every derived column is aligned with
`Close`). -/
def nrows (a : AnnotatedSeries) : ℕ := a.base.close.length

/-- The index of `df.iloc[-1]`, the final row. -/
def lastIdx (a : AnnotatedSeries) : ℕ := nrows a - 1

/-- The default condition list of `check_conditions`. -/
def defaultConditions : List String :=
  ["200MA_TREND_1M", "200MA_TREND_3M", "200MA_TREND_6M",
   "50MA>>", "150MA>200MA", "52WK_TREND"]

/-- The function `check_conditions` (src/main.py lines 107-128): for each named column,
`if df.iloc[-1][condition] == False: return False`, then `return True`.
Equivalently: true iff no named column's final-row value compares equal to
False. -/
def check_conditions (a : AnnotatedSeries) (conditions : List String) : Bool :=
  conditions.all fun c => !cellEqFalse (colCell a (lastIdx a) c)

/-- The exceptions that `load_ticker_data` can raise: its own
`Exception("No ticker defined.")` on empty input, or an upstream error
propagated out of `yf.download`. -/
inductive LoadErr where
  | noTicker : LoadErr
  | fetchErr : String → LoadErr
deriving DecidableEq

/-- The function `load_ticker_data` (src/main.py lines 95-105): on a truthy (non-empty)
ticker, download then annotate; on the empty string, raise before any
download is attempted (the `else` branch never calls the fetcher). -/
def load_ticker_data (fetch : String → Except String PriceSeries)
    (ticker : String) : Except LoadErr AnnotatedSeries :=
  if ticker ≠ "" then
    match fetch ticker with
    | Except.ok df => Except.ok (process_ticker df)
    | Except.error e => Except.error (LoadErr.fetchErr e)
  else
    Except.error LoadErr.noTicker

/-- One screening result row: the passing ticker tagged onto the cells of
its final annotated row (in the export column order). -/
def lastRowCells (a : AnnotatedSeries) : List Cell :=
  columnNames.map (colCell a (lastIdx a))

/-- One iteration of the `run` loop body for a single ticker: load the
data (exceptions propagate), then keep the tagged final row iff the frame
is non-empty and `check_conditions` holds. -/
def screenOne (fetch : String → Except String PriceSeries) (t : String) :
    Except LoadErr (Option (String × List Cell)) :=
  match load_ticker_data fetch t with
  | Except.error e => Except.error e
  | Except.ok a =>
    if nrows a ≠ 0 ∧ check_conditions a defaultConditions then
      Except.ok (some (t, lastRowCells a))
    else
      Except.ok none

/-- The `run` loop (src/main.py lines 160-172): process the tickers in
input order, appending each passing ticker's tagged final row to the
result table.  There is no try/except, so the first exception aborts the
whole batch (no table is displayed). -/
def runScreener (fetch : String → Except String PriceSeries) :
    List String → Except LoadErr (List (String × List Cell))
  | [] => Except.ok []
  | t :: ts =>
    match screenOne fetch t with
    | Except.error e => Except.error e
    | Except.ok none => runScreener fetch ts
    | Except.ok (some r) => (runScreener fetch ts).map (fun rs => r :: rs)

/-! Section: Helper lemmas -/

theorem optGt_none_left (b : Option ℚ) : optGt none b = false := by
  cases b <;> rfl

theorem trendAt_succ (ms : ℕ → Option ℚ) (i : ℕ) :
    trendAt ms (i + 1) = if optGt (ms (i + 1)) (ms i) then trendAt ms i + 1 else 0 := rfl

theorem trendAt_zero_of_none (ms : ℕ → Option ℚ) (i : ℕ) (h : ms i = none) :
    trendAt ms i = 0 := by
  cases i with
  | zero => rfl
  | succ j => rw [trendAt_succ, h, optGt_none_left]; rfl

/-- The rolling mean of a constant series is that constant wherever the
window is full. -/
theorem rollingMean_replicate (w n i : ℕ) (x : ℚ) (h0 : 0 < w)
    (hw : w ≤ i + 1) (hi : i < n) :
    rollingMean w (List.replicate n x) i = some x := by
  have hlen : (List.replicate n x).length = n := List.length_replicate _ _
  unfold rollingMean
  rw [if_pos ⟨hw, by rw [hlen]; exact hi⟩]
  unfold windowSlice
  rw [List.take_replicate, List.drop_replicate]
  have hmin : min (i + 1) n = i + 1 := by omega
  rw [hmin]
  have hcnt : i + 1 - (i + 1 - w) = w := by omega
  rw [hcnt, List.sum_replicate]
  have hw' : (w : ℚ) ≠ 0 := by exact_mod_cast h0.ne'
  rw [nsmul_eq_mul, mul_comm, mul_div_assoc, div_self hw', mul_one]

/-! Concrete series used to instantiate theorems with hypotheses. -/

/-- A one-row price series (close = 1). -/
def onePointSeries : PriceSeries := ⟨[0], [1], [1], [1], [1], [1]⟩

/-- A zero-row price series: the upstream source returned no data. -/
def emptySeries : PriceSeries := ⟨[], [], [], [], [], []⟩

/-- A series of 150 days of constant close 1: shorter than the 200-day window. -/
def flatSeries150 : PriceSeries :=
  ⟨List.replicate 150 1, List.replicate 150 1, List.replicate 150 1,
   List.replicate 150 1, List.replicate 150 1, List.replicate 150 1⟩

/-- A series of 364 days of constant close 1: exactly one full 52-week window. -/
def flatSeries364 : PriceSeries :=
  ⟨List.replicate 364 1, List.replicate 364 1, List.replicate 364 1,
   List.replicate 364 1, List.replicate 364 1, List.replicate 364 1⟩

/-! Section: Claim C6 -/

/-- Claim C6: for the empty ticker string, `load_ticker_data` raises the
"No ticker defined." error, and does so before any data fetch is attempted
(the result is the same for every fetcher, so the fetcher is never
consulted); for every non-empty ticker string this validation error is
never raised. -/
theorem c6_empty_ticker_error :
    (∀ fetch : String → Except String PriceSeries,
       load_ticker_data fetch "" = Except.error LoadErr.noTicker) ∧
    (∀ (fetch : String → Except String PriceSeries) (t : String), t ≠ "" →
       load_ticker_data fetch t ≠ Except.error LoadErr.noTicker) := by
  constructor
  · intro fetch
    rfl
  · intro fetch t ht
    unfold load_ticker_data
    rw [if_pos ht]
    cases fetch t <;> simp

/-- Witness for C6 at a concrete fetcher and the concrete ticker "A". -/
theorem c6_witness :
    load_ticker_data (fun _ => Except.ok emptySeries) "" = Except.error LoadErr.noTicker ∧
    load_ticker_data (fun _ => Except.ok emptySeries) "A" ≠ Except.error LoadErr.noTicker :=
  ⟨c6_empty_ticker_error.1 _, c6_empty_ticker_error.2 _ "A" (by decide)⟩

/-! Section: Claim C9 -/

/-- Claim C9: on every row where both the 50-day and 150-day moving
averages are defined, the `50MA>>` column is true exactly when
`MA_50 > MA_150`; the code compares against the 150-day MA twice
(the boolean is the conjunction of two identical comparisons, so the
200-day MA never enters). -/
theorem c9_ma50_above (s : PriceSeries) (i : ℕ) (a b : ℚ)
    (h50 : (process_ticker s).ma50 i = some a)
    (h150 : (process_ticker s).ma150 i = some b) :
    ((process_ticker s).ma50Above i =
       (optGt ((process_ticker s).ma50 i) ((process_ticker s).ma150 i) &&
        optGt ((process_ticker s).ma50 i) ((process_ticker s).ma150 i))) ∧
    ((process_ticker s).ma50Above i = true ↔ a > b) := by
  constructor
  · rfl
  · show (optGt (rollingMean 50 s.close i) (rollingMean 150 s.close i) &&
          optGt (rollingMean 50 s.close i) (rollingMean 150 s.close i)) = true ↔ a > b
    have e50 : rollingMean 50 s.close i = some a := h50
    have e150 : rollingMean 150 s.close i = some b := h150
    rw [e50, e150]
    simp [optGt]

set_option maxRecDepth 40000 in
/-- Witness for C9: 150 flat closes, final row; both MAs equal 1 and the
column is false since 1 > 1 fails. -/
theorem c9_witness :
    ((process_ticker flatSeries150).ma50Above 149 =
       (optGt ((process_ticker flatSeries150).ma50 149) ((process_ticker flatSeries150).ma150 149) &&
        optGt ((process_ticker flatSeries150).ma50 149) ((process_ticker flatSeries150).ma150 149))) ∧
    ((process_ticker flatSeries150).ma50Above 149 = true ↔ (1 : ℚ) > 1) :=
  c9_ma50_above flatSeries150 149 1 1
    (rollingMean_replicate 50 150 149 1 (by norm_num) (by norm_num) (by norm_num))
    (rollingMean_replicate 150 150 149 1 (by norm_num) (by norm_num) (by norm_num))

/-! Section: Claim C10 -/

/-- Claim C10: the `200MA_TREND` column and the derived `_1M/_3M/_6M`
booleans are total columns (in the model they are functions into `ℕ` and
`Bool`: the integer column is initialized to 0 and assigned on every row,
and pandas comparisons never produce NaN), the 200-day MA is undefined on
row `i` exactly when fewer than 200 rows exist so far, and on every such
row the trend counter is 0 and all three trend booleans are false. -/
theorem c10_trend_defined_zero (s : PriceSeries) (i : ℕ)
    (hi : i < nrows (process_ticker s)) :
    ((process_ticker s).ma200 i = none ↔ i + 1 < 200) ∧
    ((process_ticker s).ma200 i = none →
       (process_ticker s).trend200 i = 0 ∧
       (process_ticker s).trend1M i = false ∧
       (process_ticker s).trend3M i = false ∧
       (process_ticker s).trend6M i = false) := by
  have hi' : i < s.close.length := hi
  constructor
  · show rollingMean 200 s.close i = none ↔ i + 1 < 200
    unfold rollingMean
    by_cases h : 200 ≤ i + 1
    · rw [if_pos ⟨h, hi'⟩]
      simp
      omega
    · rw [if_neg (by tauto)]
      simp
      omega
  · intro h0
    have ht : trendAt (rollingMean 200 s.close) i = 0 :=
      trendAt_zero_of_none _ i h0
    refine ⟨ht, ?_, ?_, ?_⟩
    · show decide (30 ≤ trendAt (rollingMean 200 s.close) i) = false
      rw [ht]
      rfl
    · show decide (90 ≤ trendAt (rollingMean 200 s.close) i) = false
      rw [ht]
      rfl
    · show decide (180 ≤ trendAt (rollingMean 200 s.close) i) = false
      rw [ht]
      rfl

/-- Witness for C10: a one-row series; row 0 has no 200-day MA, the trend
counter there is 0 and every trend boolean is false. -/
theorem c10_witness :
    (process_ticker onePointSeries).trend200 0 = 0 ∧
    (process_ticker onePointSeries).trend1M 0 = false ∧
    (process_ticker onePointSeries).trend3M 0 = false ∧
    (process_ticker onePointSeries).trend6M 0 = false :=
  (c10_trend_defined_zero onePointSeries 0 (by decide)).2 (by decide)

/-! Section: Claim C1 -/

/-- Claim C1 (amended): `check_conditions` reads only the final row and
returns false iff some named column's final-row value compares equal to
`False`; when every named column's final-row value is a defined boolean
this means it returns true iff all of them are true.  An undefined (NaN)
final-row value does NOT make the result false: `NaN == False` is false in
numpy, so the `if df.iloc[-1][condition] == False` guard skips it and the
condition behaves as met. -/
theorem c1_check_conditions_skips_nan (s : PriceSeries) (conds : List String)
    (_hne : s.close ≠ []) :
    (check_conditions (process_ticker s) conds = true ↔
       ∀ c ∈ conds,
         cellEqFalse (colCell (process_ticker s) (lastIdx (process_ticker s)) c) = false) ∧
    ((∀ c ∈ conds,
        ∃ b, colCell (process_ticker s) (lastIdx (process_ticker s)) c = Cell.bval b) →
       (check_conditions (process_ticker s) conds = true ↔
          ∀ c ∈ conds,
            colCell (process_ticker s) (lastIdx (process_ticker s)) c = Cell.bval true)) := by
  have hall : check_conditions (process_ticker s) conds = true ↔
      ∀ c ∈ conds,
        cellEqFalse (colCell (process_ticker s) (lastIdx (process_ticker s)) c) = false := by
    simp [check_conditions, List.all_eq_true]
  refine ⟨hall, fun hb => ?_⟩
  rw [hall]
  constructor
  · intro h c hc
    obtain ⟨b, e⟩ := hb c hc
    have hc' := h c hc
    rw [e] at hc' ⊢
    cases b
    · exact absurd hc' (by simp [cellEqFalse])
    · rfl
  · intro h c hc
    rw [h c hc]
    rfl

/-- Claim C1 counterexample: a one-row series with the condition list
`["200MA"]`.  The final-row value of column `200MA` is undefined (the
200-day window is not full), yet `check_conditions` returns true — an
undefined value does not make the result false, refuting the claim as
stated. -/
theorem c1_counterexample_nan_passes :
    onePointSeries.close ≠ [] ∧
    colCell (process_ticker onePointSeries) (lastIdx (process_ticker onePointSeries)) "200MA" =
      Cell.nan ∧
    check_conditions (process_ticker onePointSeries) ["200MA"] = true :=
  ⟨by decide, by decide, by decide⟩

/-- Witness for C1 at a concrete series and the default condition list. -/
theorem c1_witness :
    check_conditions (process_ticker onePointSeries) defaultConditions = true ↔
      ∀ c ∈ defaultConditions,
        cellEqFalse (colCell (process_ticker onePointSeries)
          (lastIdx (process_ticker onePointSeries)) c) = false :=
  (c1_check_conditions_skips_nan onePointSeries defaultConditions (by decide)).1

/-! Section: Claim C3 -/

/-- Claim C3 (code bug): the `run` loop has no try/except, so a ticker
whose load raises aborts the whole batch: with the empty ticker first,
the run raises `No ticker defined.` for every fetcher and every list of
remaining tickers — none of them is loaded or evaluated — whereas the
remaining ticker "A" on its own is processed normally.  The claim's
per-ticker error isolation is required by the spec but absent from the
code. -/
theorem c3_failure_aborts_batch :
    (∀ (fetch : String → Except String PriceSeries) (ts : List String),
       runScreener fetch ("" :: ts) = Except.error LoadErr.noTicker) ∧
    runScreener (fun _ => Except.ok emptySeries) ["A"] = Except.ok [] := by
  constructor
  · intro fetch ts
    rfl
  · rfl

/-! Section: Claim C2 -/

/-- Claim C2: the `200MA_TREND` column is a streak counter over the
200-day MA: 0 on the first row; on row `i+1` it increments the row-`i`
value when the 200-day MA strictly increased (in NaN semantics) and resets
to 0 otherwise; consequently over any run of `n` consecutive strictly
increasing 200-day-MA values the counter at the run's end equals the value
at the run's start plus `n - 1`. -/
theorem c2_trend200_streak (s : PriceSeries) :
    (process_ticker s).trend200 0 = 0 ∧
    (∀ i, (process_ticker s).trend200 (i + 1) =
       if optGt ((process_ticker s).ma200 (i + 1)) ((process_ticker s).ma200 i)
       then (process_ticker s).trend200 i + 1 else 0) ∧
    (∀ i n, 0 < n →
       (∀ j, i < j → j < i + n →
          optGt ((process_ticker s).ma200 j) ((process_ticker s).ma200 (j - 1)) = true) →
       (process_ticker s).trend200 (i + n - 1) = (process_ticker s).trend200 i + (n - 1)) := by
  refine ⟨rfl, fun i => rfl, ?_⟩
  intro i n
  induction n with
  | zero =>
    intro hn
    exact absurd hn (lt_irrefl 0)
  | succ m ih =>
    intro hn hrun
    rcases Nat.eq_zero_or_pos m with h0 | hm
    · subst h0
      rw [show i + (0 + 1) - 1 = i from by omega, show (0 : ℕ) + 1 - 1 = 0 from rfl]
      rfl
    · have e1 : i + (m + 1) - 1 = (i + m - 1) + 1 := by omega
      have e2 : (i + m - 1) + 1 = i + m := by omega
      have hstep : optGt (rollingMean 200 s.close (i + m))
          (rollingMean 200 s.close (i + m - 1)) = true :=
        hrun (i + m) (by omega) (by omega)
      show trendAt (rollingMean 200 s.close) (i + (m + 1) - 1) =
        trendAt (rollingMean 200 s.close) i + (m + 1 - 1)
      rw [e1, trendAt_succ, e2, hstep, if_pos rfl]
      have ihm : trendAt (rollingMean 200 s.close) (i + m - 1) =
          trendAt (rollingMean 200 s.close) i + (m - 1) :=
        ih hm (fun j hj1 hj2 => hrun j hj1 (by omega))
      rw [ihm]
      omega

/-- Closes: 200 zeros followed by a single close of 200: the 200-day MA
jumps from 0 on row 199 to 1 on row 200. -/
def stepClose : List ℚ := List.replicate 200 (0 : ℚ) ++ [200]

/-- Price series built on `stepClose`. -/
def stepSeries201 : PriceSeries :=
  ⟨stepClose, stepClose, stepClose, stepClose, stepClose, stepClose⟩

theorem stepClose_length : stepClose.length = 201 := by
  unfold stepClose
  rw [List.length_append, List.length_replicate]
  rfl

theorem step_ma199 : rollingMean 200 stepClose 199 = some 0 := by
  unfold rollingMean
  rw [if_pos ⟨by omega, by rw [stepClose_length]; omega⟩]
  unfold windowSlice
  have h1 : (199 : ℕ) + 1 - 200 = 0 := rfl
  rw [h1, List.drop_zero]
  have h2 : stepClose.take (199 + 1) = List.replicate 200 (0 : ℚ) := by
    unfold stepClose
    rw [show (199 : ℕ) + 1 = (List.replicate 200 (0 : ℚ)).length from
      (List.length_replicate _ _).symm]
    exact List.take_left _ _
  rw [h2, List.sum_replicate]
  norm_num

theorem step_ma200 : rollingMean 200 stepClose 200 = some 1 := by
  unfold rollingMean
  rw [if_pos ⟨by omega, by rw [stepClose_length]; omega⟩]
  unfold windowSlice
  have h1 : stepClose.take (200 + 1) = stepClose := by
    rw [show (200 : ℕ) + 1 = stepClose.length from stepClose_length.symm]
    exact List.take_length _
  rw [h1]
  have h2 : stepClose.drop (200 + 1 - 200) = List.replicate 199 (0 : ℚ) ++ [200] := by
    have hs : stepClose = 0 :: (List.replicate 199 (0 : ℚ) ++ [200]) := by
      show List.replicate (199 + 1) (0 : ℚ) ++ [200] = _
      rw [List.replicate_succ, List.cons_append]
    rw [hs]
    rfl
  rw [h2, List.sum_append, List.sum_replicate]
  norm_num

set_option maxRecDepth 40000 in
/-- Witness for C2: on `stepSeries201` the 200-day MA strictly increases
from row 199 to row 200 (a run of length 2), so the counter at row 200
exceeds the counter at row 199 by one. -/
theorem c2_witness :
    (process_ticker stepSeries201).trend200 (199 + 2 - 1) =
      (process_ticker stepSeries201).trend200 199 + (2 - 1) := by
  apply (c2_trend200_streak stepSeries201).2.2 199 2 (by norm_num)
  intro j hj1 hj2
  have hj : j = 200 := by omega
  subst hj
  show optGt (rollingMean 200 stepClose 200) (rollingMean 200 stepClose (200 - 1)) = true
  rw [show (200 : ℕ) - 1 = 199 from rfl, step_ma200, step_ma199]
  decide

/-! Section: Inversion lemmas for the screener driver -/

theorem screenOne_some_inv (fetch : String → Except String PriceSeries) (t : String)
    (r : String × List Cell) (h : screenOne fetch t = Except.ok (some r)) :
    r.1 = t ∧ ∃ a, load_ticker_data fetch t = Except.ok a ∧ nrows a ≠ 0 ∧
      check_conditions a defaultConditions = true ∧ r.2 = lastRowCells a := by
  unfold screenOne at h
  split at h
  next e heq => exact absurd h (by simp)
  next a heq =>
    split at h
    next hg =>
      have hr : (t, lastRowCells a) = r := by
        injection h with h1
        injection h1
      subst hr
      exact ⟨rfl, a, heq, hg.1, hg.2, rfl⟩
    next hg => exact absurd h (by simp)

theorem screenOne_eq_none (fetch : String → Except String PriceSeries) (t : String)
    (a : AnnotatedSeries) (hload : load_ticker_data fetch t = Except.ok a)
    (hfail : ¬(nrows a ≠ 0 ∧ check_conditions a defaultConditions = true)) :
    screenOne fetch t = Except.ok none := by
  unfold screenOne
  rw [hload]
  show (if nrows a ≠ 0 ∧ check_conditions a defaultConditions = true then
      Except.ok (some (t, lastRowCells a)) else Except.ok none) = Except.ok none
  rw [if_neg hfail]

theorem runScreener_mem (fetch : String → Except String PriceSeries) :
    ∀ (ts : List String) (rows : List (String × List Cell)),
      runScreener fetch ts = Except.ok rows →
      ∀ r ∈ rows, screenOne fetch r.1 = Except.ok (some r) := by
  intro ts
  induction ts with
  | nil =>
    intro rows hrun r hr
    unfold runScreener at hrun
    injection hrun with h
    subst h
    cases hr
  | cons t ts ih =>
    intro rows hrun r hr
    unfold runScreener at hrun
    cases hs : screenOne fetch t with
    | error e =>
      rw [hs] at hrun
      exact absurd hrun (by simp)
    | ok o =>
      rw [hs] at hrun
      cases o with
      | none => exact ih rows hrun r hr
      | some r' =>
        cases h2 : runScreener fetch ts with
        | error e =>
          rw [h2] at hrun
          exact absurd hrun (by simp [Except.map])
        | ok rest =>
          rw [h2] at hrun
          simp only [Except.map] at hrun
          injection hrun with h3
          subst h3
          rcases List.mem_cons.mp hr with h4 | h4
          · subst h4
            have h5 := (screenOne_some_inv fetch t r hs).1
            rw [h5]
            exact hs
          · exact ih rest h2 r h4

theorem runScreener_sublist (fetch : String → Except String PriceSeries) :
    ∀ (ts : List String) (rows : List (String × List Cell)),
      runScreener fetch ts = Except.ok rows → (rows.map Prod.fst).Sublist ts := by
  intro ts
  induction ts with
  | nil =>
    intro rows hrun
    unfold runScreener at hrun
    injection hrun with h
    subst h
    exact List.Sublist.refl _
  | cons t ts ih =>
    intro rows hrun
    unfold runScreener at hrun
    cases hs : screenOne fetch t with
    | error e =>
      rw [hs] at hrun
      exact absurd hrun (by simp)
    | ok o =>
      rw [hs] at hrun
      cases o with
      | none => exact List.Sublist.cons t (ih rows hrun)
      | some r' =>
        cases h2 : runScreener fetch ts with
        | error e =>
          rw [h2] at hrun
          exact absurd hrun (by simp [Except.map])
        | ok rest =>
          rw [h2] at hrun
          simp only [Except.map] at hrun
          injection hrun with h3
          subst h3
          rw [List.map_cons, (screenOne_some_inv fetch t r' hs).1]
          exact List.Sublist.cons₂ t (ih rest h2)

/-! Section: Claim C7 -/

/-- Claim C7: whenever the run loop completes, the result table has at
most one row per requested ticker (so no more rows than tickers), the
rows' ticker tags form a sublist of the input list (same relative order),
and every row is the tagged final annotated row of a ticker whose loaded
series was non-empty and passed all default conditions. -/
theorem c7_result_table_shape (fetch : String → Except String PriceSeries)
    (tickers : List String) (rows : List (String × List Cell))
    (hrun : runScreener fetch tickers = Except.ok rows) :
    rows.length ≤ tickers.length ∧
    (rows.map Prod.fst).Sublist tickers ∧
    ∀ r ∈ rows, ∃ a, load_ticker_data fetch r.1 = Except.ok a ∧ nrows a ≠ 0 ∧
      check_conditions a defaultConditions = true ∧ r.2 = lastRowCells a := by
  have hsub := runScreener_sublist fetch tickers rows hrun
  refine ⟨?_, hsub, ?_⟩
  · have hlen := hsub.length_le
    rwa [List.length_map] at hlen
  · intro r hr
    exact ((screenOne_some_inv fetch r.1 r
      (runScreener_mem fetch tickers rows hrun r hr)).2)

/-- Witness for C7 at a concrete fetcher (always returns the empty series)
and ticker list; the run produces an empty table. -/
theorem c7_witness :
    ([] : List (String × List Cell)).length ≤ ["A"].length ∧
    (([] : List (String × List Cell)).map Prod.fst).Sublist ["A"] ∧
    ∀ r ∈ ([] : List (String × List Cell)),
      ∃ a, load_ticker_data (fun _ => Except.ok emptySeries) r.1 = Except.ok a ∧
        nrows a ≠ 0 ∧ check_conditions a defaultConditions = true ∧
        r.2 = lastRowCells a :=
  c7_result_table_shape (fun _ => Except.ok emptySeries) ["A"] [] rfl

/-! Section: Claim C4 -/

/-- Claim C4: for a non-empty series shorter than 200 rows, the 200-day MA
is undefined on every row, the default conditions fail on the final row
(the trend counter is 0 there, so `200MA_TREND_1M` is false), and a ticker
whose fetch returns such a series never appears in the result table of a
completed run. -/
theorem c4_short_series_rejected (s : PriceSeries) (h0 : 0 < s.close.length)
    (h200 : s.close.length < 200) :
    (∀ i, i < s.close.length → (process_ticker s).ma200 i = none) ∧
    check_conditions (process_ticker s) defaultConditions = false ∧
    (∀ (fetch : String → Except String PriceSeries) (t : String) (ts : List String)
       (rows : List (String × List Cell)), fetch t = Except.ok s →
       runScreener fetch ts = Except.ok rows → ∀ cells, (t, cells) ∉ rows) := by
  have hma : ∀ i, i < s.close.length → (process_ticker s).ma200 i = none := by
    intro i hi
    show rollingMean 200 s.close i = none
    unfold rollingMean
    rw [if_neg]
    rintro ⟨hw, -⟩
    omega
  have hnone : rollingMean 200 s.close (lastIdx (process_ticker s)) = none := by
    have := hma (lastIdx (process_ticker s)) (by show s.close.length - 1 < s.close.length; omega)
    exact this
  have ht : trendAt (rollingMean 200 s.close) (lastIdx (process_ticker s)) = 0 :=
    trendAt_zero_of_none _ _ hnone
  have h1M : (process_ticker s).trend1M (lastIdx (process_ticker s)) = false := by
    show decide (30 ≤ trendAt (rollingMean 200 s.close) (lastIdx (process_ticker s))) = false
    rw [ht]
    rfl
  have hchk : check_conditions (process_ticker s) defaultConditions = false := by
    unfold check_conditions defaultConditions
    rw [List.all_cons]
    have hcol : colCell (process_ticker s) (lastIdx (process_ticker s)) "200MA_TREND_1M" =
        Cell.bval ((process_ticker s).trend1M (lastIdx (process_ticker s))) := rfl
    rw [hcol, h1M]
    rfl
  refine ⟨hma, hchk, ?_⟩
  intro fetch t ts rows hf hrun cells hmem
  have hs : screenOne fetch t = Except.ok (some (t, cells)) :=
    runScreener_mem fetch ts rows hrun (t, cells) hmem
  obtain ⟨-, a, hload, -, hcheck, -⟩ := screenOne_some_inv fetch t (t, cells) hs
  by_cases ht' : t = ""
  · subst ht'
    unfold load_ticker_data at hload
    simp at hload
  · unfold load_ticker_data at hload
    rw [if_pos ht', hf] at hload
    injection hload with ha
    rw [← ha, hchk] at hcheck
    exact Bool.noConfusion hcheck

/-- Witness for C4: 150 flat closes; the 200-day MA is undefined on the
final row, the default conditions fail, and a single-ticker run on this
series yields an empty result table. -/
theorem c4_witness :
    (process_ticker flatSeries150).ma200 149 = none ∧
    check_conditions (process_ticker flatSeries150) defaultConditions = false ∧
    ∀ cells, ("T", cells) ∉ ([] : List (String × List Cell)) := by
  have h := c4_short_series_rejected flatSeries150
    (by simp [flatSeries150]) (by simp [flatSeries150])
  have hload : load_ticker_data (fun _ => Except.ok flatSeries150) "T" =
      Except.ok (process_ticker flatSeries150) := rfl
  have hone : screenOne (fun _ => Except.ok flatSeries150) "T" = Except.ok none := by
    apply screenOne_eq_none _ _ _ hload
    rintro ⟨-, hc⟩
    rw [h.2.1] at hc
    exact Bool.noConfusion hc
  have hrun : runScreener (fun _ => Except.ok flatSeries150) ["T"] = Except.ok [] := by
    unfold runScreener
    rw [hone]
    rfl
  exact ⟨h.1 149 (by simp [flatSeries150]), h.2.1,
    h.2.2 (fun _ => Except.ok flatSeries150) "T" ["T"] [] rfl hrun⟩

/-! Section: Max/min lemmas for the rolling 52-week window -/

theorem le_foldl_max : ∀ (xs : List ℚ) (x : ℚ), x ≤ xs.foldl max x := by
  intro xs
  induction xs with
  | nil => intro x; exact le_refl x
  | cons y ys ih => intro x; exact le_trans (le_max_left x y) (ih (max x y))

theorem mem_le_foldl_max : ∀ (xs : List ℚ) (x y : ℚ), y ∈ xs → y ≤ xs.foldl max x := by
  intro xs
  induction xs with
  | nil => intro x y h; cases h
  | cons z zs ih =>
    intro x y h
    rcases List.mem_cons.mp h with h1 | h1
    · subst h1
      exact le_trans (le_max_right x y) (le_foldl_max zs (max x y))
    · exact ih (max x z) y h1

theorem foldl_max_mem : ∀ (xs : List ℚ) (x : ℚ), xs.foldl max x = x ∨ xs.foldl max x ∈ xs := by
  intro xs
  induction xs with
  | nil => intro x; exact Or.inl rfl
  | cons y ys ih =>
    intro x
    have hstep : (y :: ys).foldl max x = ys.foldl max (max x y) := rfl
    rcases ih (max x y) with h | h
    · rcases max_choice x y with hx | hy
      · left
        rw [hstep, h, hx]
      · right
        rw [hstep, h, hy]
        exact List.mem_cons_self _ _
    · right
      rw [hstep]
      exact List.mem_cons_of_mem _ h

theorem listMax_spec (l : List ℚ) (m : ℚ) (h : listMax l = some m) :
    m ∈ l ∧ ∀ x ∈ l, x ≤ m := by
  cases l with
  | nil => exact absurd h (by simp [listMax])
  | cons x xs =>
    unfold listMax at h
    injection h with h
    subst h
    constructor
    · rcases foldl_max_mem xs x with h | h
      · rw [h]
        exact List.mem_cons_self _ _
      · exact List.mem_cons_of_mem _ h
    · intro y hy
      rcases List.mem_cons.mp hy with h1 | h1
      · subst h1
        exact le_foldl_max xs y
      · exact mem_le_foldl_max xs x y h1

theorem foldl_min_le : ∀ (xs : List ℚ) (x : ℚ), xs.foldl min x ≤ x := by
  intro xs
  induction xs with
  | nil => intro x; exact le_refl x
  | cons y ys ih => intro x; exact le_trans (ih (min x y)) (min_le_left x y)

theorem foldl_min_le_mem : ∀ (xs : List ℚ) (x y : ℚ), y ∈ xs → xs.foldl min x ≤ y := by
  intro xs
  induction xs with
  | nil => intro x y h; cases h
  | cons z zs ih =>
    intro x y h
    rcases List.mem_cons.mp h with h1 | h1
    · subst h1
      exact le_trans (foldl_min_le zs (min x y)) (min_le_right x y)
    · exact ih (min x z) y h1

theorem foldl_min_mem : ∀ (xs : List ℚ) (x : ℚ), xs.foldl min x = x ∨ xs.foldl min x ∈ xs := by
  intro xs
  induction xs with
  | nil => intro x; exact Or.inl rfl
  | cons y ys ih =>
    intro x
    have hstep : (y :: ys).foldl min x = ys.foldl min (min x y) := rfl
    rcases ih (min x y) with h | h
    · rcases min_choice x y with hx | hy
      · left
        rw [hstep, h, hx]
      · right
        rw [hstep, h, hy]
        exact List.mem_cons_self _ _
    · right
      rw [hstep]
      exact List.mem_cons_of_mem _ h

theorem listMin_spec (l : List ℚ) (m : ℚ) (h : listMin l = some m) :
    m ∈ l ∧ ∀ x ∈ l, m ≤ x := by
  cases l with
  | nil => exact absurd h (by simp [listMin])
  | cons x xs =>
    unfold listMin at h
    injection h with h
    subst h
    constructor
    · rcases foldl_min_mem xs x with h | h
      · rw [h]
        exact List.mem_cons_self _ _
      · exact List.mem_cons_of_mem _ h
    · intro y hy
      rcases List.mem_cons.mp hy with h1 | h1
      · subst h1
        exact foldl_min_le xs y
      · exact foldl_min_le_mem xs x y h1

theorem windowSlice_length (w i : ℕ) (xs : List ℚ) (hw : w ≤ i + 1)
    (hi : i < xs.length) : (windowSlice w i xs).length = w := by
  unfold windowSlice
  rw [List.length_drop, List.length_take]
  omega

theorem windowSlice_append (w i : ℕ) (xs ys : List ℚ) (hi : i < xs.length) :
    windowSlice w i (xs ++ ys) = windowSlice w i xs := by
  unfold windowSlice
  rw [List.take_append_of_le_length (by omega)]

theorem rollingMax_append (w : ℕ) (xs ys : List ℚ) (i : ℕ) (hi : i < xs.length) :
    rollingMax w (xs ++ ys) i = rollingMax w xs i := by
  unfold rollingMax
  by_cases h : w ≤ i + 1
  · rw [if_pos ⟨h, by rw [List.length_append]; omega⟩, if_pos ⟨h, hi⟩,
      windowSlice_append w i xs ys hi]
  · rw [if_neg (by tauto), if_neg (by tauto)]

theorem rollingMin_append (w : ℕ) (xs ys : List ℚ) (i : ℕ) (hi : i < xs.length) :
    rollingMin w (xs ++ ys) i = rollingMin w xs i := by
  unfold rollingMin
  by_cases h : w ≤ i + 1
  · rw [if_pos ⟨h, by rw [List.length_append]; omega⟩, if_pos ⟨h, hi⟩,
      windowSlice_append w i xs ys hi]
  · rw [if_neg (by tauto), if_neg (by tauto)]

/-! Section: Claim C5 -/

/-- Claim C5: on every row whose 364-day (52*7) window is full, the
`52WK_TREND` column equals
`((close < max364 * 1.25) OR (close > max364 * 0.75)) AND (close > min364 * 1.3)`
where `max364`/`min364` are the genuine maximum/minimum of the trailing
364-row window of closes (past and current rows only); appending future
rows never changes the value at row `i` (no look-ahead). -/
theorem c5_wk52_formula (s : PriceSeries) (i : ℕ)
    (hw : 52 * 7 ≤ i + 1) (hi : i < s.close.length) :
    ∃ c mx mn,
      s.close.get? i = some c ∧
      rollingMax (52 * 7) s.close i = some mx ∧
      rollingMin (52 * 7) s.close i = some mn ∧
      mx ∈ windowSlice (52 * 7) i s.close ∧
      (∀ x ∈ windowSlice (52 * 7) i s.close, x ≤ mx) ∧
      mn ∈ windowSlice (52 * 7) i s.close ∧
      (∀ x ∈ windowSlice (52 * 7) i s.close, mn ≤ x) ∧
      ((process_ticker s).wk52T i =
        ((decide (c < mx * (5 / 4)) || decide (mx * (3 / 4) < c)) &&
         decide (mn * (13 / 10) < c))) ∧
      (∀ ys, (process_ticker { s with close := s.close ++ ys }).wk52T i =
         (process_ticker s).wk52T i) := by
  have hlen : (windowSlice (52 * 7) i s.close).length = 52 * 7 :=
    windowSlice_length _ _ _ hw hi
  obtain ⟨mx, hmx⟩ : ∃ mx, listMax (windowSlice (52 * 7) i s.close) = some mx := by
    cases hc : windowSlice (52 * 7) i s.close with
    | nil => rw [hc] at hlen; exact absurd hlen (by norm_num)
    | cons a l => exact ⟨_, rfl⟩
  obtain ⟨mn, hmn⟩ : ∃ mn, listMin (windowSlice (52 * 7) i s.close) = some mn := by
    cases hc : windowSlice (52 * 7) i s.close with
    | nil => rw [hc] at hlen; exact absurd hlen (by norm_num)
    | cons a l => exact ⟨_, rfl⟩
  have hMax : rollingMax (52 * 7) s.close i = some mx := by
    unfold rollingMax
    rw [if_pos ⟨hw, hi⟩, hmx]
  have hMin : rollingMin (52 * 7) s.close i = some mn := by
    unfold rollingMin
    rw [if_pos ⟨hw, hi⟩, hmn]
  have hget : s.close.get? i = some (s.close.get ⟨i, hi⟩) := List.get?_eq_get hi
  obtain ⟨hmxmem, hmxub⟩ := listMax_spec _ _ hmx
  obtain ⟨hmnmem, hmnlb⟩ := listMin_spec _ _ hmn
  refine ⟨s.close.get ⟨i, hi⟩, mx, mn, hget, hMax, hMin, hmxmem, hmxub, hmnmem, hmnlb, ?_, ?_⟩
  · show ((optLt (s.close.get? i) ((rollingMax (52 * 7) s.close i).map (· * (5 / 4 : ℚ))) ||
       optGt (s.close.get? i) ((rollingMax (52 * 7) s.close i).map (· * (3 / 4 : ℚ)))) &&
      optGt (s.close.get? i) ((rollingMin (52 * 7) s.close i).map (· * (13 / 10 : ℚ)))) = _
    rw [hget, hMax, hMin]
    rfl
  · intro ys
    show ((optLt ((s.close ++ ys).get? i) ((rollingMax (52 * 7) (s.close ++ ys) i).map (· * (5 / 4 : ℚ))) ||
       optGt ((s.close ++ ys).get? i) ((rollingMax (52 * 7) (s.close ++ ys) i).map (· * (3 / 4 : ℚ)))) &&
      optGt ((s.close ++ ys).get? i) ((rollingMin (52 * 7) (s.close ++ ys) i).map (· * (13 / 10 : ℚ)))) =
      ((optLt (s.close.get? i) ((rollingMax (52 * 7) s.close i).map (· * (5 / 4 : ℚ))) ||
       optGt (s.close.get? i) ((rollingMax (52 * 7) s.close i).map (· * (3 / 4 : ℚ)))) &&
      optGt (s.close.get? i) ((rollingMin (52 * 7) s.close i).map (· * (13 / 10 : ℚ))))
    rw [List.get?_append hi, rollingMax_append _ _ _ _ hi, rollingMin_append _ _ _ _ hi]

/-- Witness for C5: 364 flat closes, final row (the only full-window
row). -/
theorem c5_witness :
    ∃ c mx mn,
      flatSeries364.close.get? 363 = some c ∧
      rollingMax (52 * 7) flatSeries364.close 363 = some mx ∧
      rollingMin (52 * 7) flatSeries364.close 363 = some mn ∧
      mx ∈ windowSlice (52 * 7) 363 flatSeries364.close ∧
      (∀ x ∈ windowSlice (52 * 7) 363 flatSeries364.close, x ≤ mx) ∧
      mn ∈ windowSlice (52 * 7) 363 flatSeries364.close ∧
      (∀ x ∈ windowSlice (52 * 7) 363 flatSeries364.close, mn ≤ x) ∧
      ((process_ticker flatSeries364).wk52T 363 =
        ((decide (c < mx * (5 / 4)) || decide (mx * (3 / 4) < c)) &&
         decide (mn * (13 / 10) < c))) ∧
      (∀ ys, (process_ticker { flatSeries364 with close := flatSeries364.close ++ ys }).wk52T 363 =
         (process_ticker flatSeries364).wk52T 363) :=
  c5_wk52_formula flatSeries364 363 (by norm_num)
    (by show (363 : ℕ) < (List.replicate 364 (1 : ℚ)).length
        rw [List.length_replicate]
        norm_num)

/-! Section: Claim C8 -/

/-- Claim C8: the annotator is a deterministic pure function of the
close-price column: two series with equal closes get identical derived
columns, whatever their other base columns; and re-running the annotator
on an annotated series' base columns reproduces the same annotated series
(idempotence). -/
theorem c8_annotator_deterministic (s1 s2 : PriceSeries) (h : s1.close = s2.close) :
    ((process_ticker s1).ma50 = (process_ticker s2).ma50 ∧
     (process_ticker s1).ma150 = (process_ticker s2).ma150 ∧
     (process_ticker s1).ma200 = (process_ticker s2).ma200 ∧
     (process_ticker s1).trend200 = (process_ticker s2).trend200 ∧
     (process_ticker s1).trend1M = (process_ticker s2).trend1M ∧
     (process_ticker s1).trend3M = (process_ticker s2).trend3M ∧
     (process_ticker s1).trend6M = (process_ticker s2).trend6M ∧
     (process_ticker s1).ma50Above = (process_ticker s2).ma50Above ∧
     (process_ticker s1).ma150Above200 = (process_ticker s2).ma150Above200 ∧
     (process_ticker s1).wk52T = (process_ticker s2).wk52T) ∧
    process_ticker (process_ticker s1).base = process_ticker s1 := by
  refine ⟨⟨?_, ?_, ?_, ?_, ?_, ?_, ?_, ?_, ?_, ?_⟩, rfl⟩
  · show rollingMean 50 s1.close = rollingMean 50 s2.close
    rw [h]
  · show rollingMean 150 s1.close = rollingMean 150 s2.close
    rw [h]
  · show rollingMean 200 s1.close = rollingMean 200 s2.close
    rw [h]
  · show trendAt (rollingMean 200 s1.close) = trendAt (rollingMean 200 s2.close)
    rw [h]
  · show (fun i => decide (30 ≤ trendAt (rollingMean 200 s1.close) i)) =
      (fun i => decide (30 ≤ trendAt (rollingMean 200 s2.close) i))
    rw [h]
  · show (fun i => decide (90 ≤ trendAt (rollingMean 200 s1.close) i)) =
      (fun i => decide (90 ≤ trendAt (rollingMean 200 s2.close) i))
    rw [h]
  · show (fun i => decide (180 ≤ trendAt (rollingMean 200 s1.close) i)) =
      (fun i => decide (180 ≤ trendAt (rollingMean 200 s2.close) i))
    rw [h]
  · show (fun i => optGt (rollingMean 50 s1.close i) (rollingMean 150 s1.close i) &&
        optGt (rollingMean 50 s1.close i) (rollingMean 150 s1.close i)) =
      (fun i => optGt (rollingMean 50 s2.close i) (rollingMean 150 s2.close i) &&
        optGt (rollingMean 50 s2.close i) (rollingMean 150 s2.close i))
    rw [h]
  · show (fun i => optGt (rollingMean 150 s1.close i) (rollingMean 200 s1.close i)) =
      (fun i => optGt (rollingMean 150 s2.close i) (rollingMean 200 s2.close i))
    rw [h]
  · show (fun i =>
      (optLt (s1.close.get? i) ((rollingMax (52 * 7) s1.close i).map (· * (5 / 4 : ℚ))) ||
       optGt (s1.close.get? i) ((rollingMax (52 * 7) s1.close i).map (· * (3 / 4 : ℚ)))) &&
      optGt (s1.close.get? i) ((rollingMin (52 * 7) s1.close i).map (· * (13 / 10 : ℚ)))) =
      (fun i =>
      (optLt (s2.close.get? i) ((rollingMax (52 * 7) s2.close i).map (· * (5 / 4 : ℚ))) ||
       optGt (s2.close.get? i) ((rollingMax (52 * 7) s2.close i).map (· * (3 / 4 : ℚ)))) &&
      optGt (s2.close.get? i) ((rollingMin (52 * 7) s2.close i).map (· * (13 / 10 : ℚ))))
    rw [h]

/-- Two one-row series with the same close (5) but different dates, OHLV
and volume columns. -/
def seriesA : PriceSeries := ⟨[0], [1], [1], [1], [5], [7]⟩

/-- See `seriesA`: same close column, every other base column differs. -/
def seriesB : PriceSeries := ⟨[3], [2], [4], [9], [5], [11]⟩

/-- Witness for C8 at two concrete series equal only in their close
columns. -/
theorem c8_witness :
    ((process_ticker seriesA).ma50 = (process_ticker seriesB).ma50 ∧
     (process_ticker seriesA).wk52T = (process_ticker seriesB).wk52T) ∧
    process_ticker (process_ticker seriesA).base = process_ticker seriesA :=
  ⟨⟨(c8_annotator_deterministic seriesA seriesB rfl).1.1,
    (c8_annotator_deterministic seriesA seriesB rfl).1.2.2.2.2.2.2.2.2.2⟩,
   (c8_annotator_deterministic seriesA seriesB rfl).2⟩

end Minervini
